import Mathlib

/-!
Shallow embedding of the gitlab-artifacts-cleaner deletion pipeline.

The program (src/main.go and the discovery variant in src/unnamed/part_000)
deletes GitLab job artifacts through a worker pool: each worker acquires a
slot on a buffered channel used as a counting semaphore, optionally short
circuits in dry-run mode, otherwise performs up to three DELETE attempts
with linear backoff on transport errors, classifies the final HTTP response,
and bumps one outcome counter plus a processed counter atomically.

The embedding turns the per-worker effectful code into a pure function from
an oracle environment (`JobEnv`, fixing the scheduler and transport choices
the real run would observe) to a record of the counter increments and the
observable side effects (sleeps and issued requests) of that worker.
-/

/-- Terminal outcome classification of one job, mirroring the three counters
`successCounter`, `failureCounter`, `skippedCounter` in src/main.go. -/
inductive Outcome where
  | success
  | failure
  | skipped
  deriving DecidableEq, Repr

/-- Result of one `httpClient.Do` call for a DELETE attempt: either a Go
transport error (`err != nil`) or a response carrying an HTTP status code. -/
inductive AttemptResult where
  | transportError
  | response (status : Nat)
  deriving DecidableEq, Repr

/-- Oracle environment for one worker run of `deleteArtifact`.  It fixes every
observation the goroutine makes of its context and of the network:

* `admitted` — whether the initial `select` obtains the semaphore slot before
  `ctx.Done()` fires (src/main.go lines 78-82);
* `cancelAfterAcquire` — the `ctx.Err() != nil` check right after acquiring
  (line 86);
* `cancelAt i` — the `ctx.Err() != nil` check at the top of retry iteration
  `i` (line 111);
* `newReqFails i` — whether `http.NewRequest` errors at iteration `i`
  (line 116);
* `transport i` — the result of `httpClient.Do` at iteration `i` (line 132). -/
structure JobEnv where
  dryRun : Bool
  admitted : Bool
  cancelAfterAcquire : Bool
  cancelAt : Nat → Bool
  newReqFails : Nat → Bool
  transport : Nat → AttemptResult

/-- Observable effects of one worker: the four counter increments performed by
`atomic.AddInt64`, the backoff sleeps (in seconds, in order), the retry
iterations at which a DELETE request was actually issued, and whether the
semaphore token was acquired and released. -/
structure JobRun where
  dSuccess : Nat
  dFailure : Nat
  dSkipped : Nat
  dProcessed : Nat
  sleeps : List Nat
  requests : List Nat
  acquired : Bool
  released : Bool
  deriving DecidableEq, Repr

/-- Status-code classification of the final response in `deleteArtifact`
(src/main.go lines 160-191): `http.StatusNoContent` (204) is a success,
`http.StatusNotFound` (404) is skipped, anything else is a failure. -/
def classify (status : Nat) : Outcome :=
  if status = 204 then Outcome.success
  else if status = 404 then Outcome.skipped
  else Outcome.failure

/-- A worker return path that records outcome `o`: it increments the matching
outcome counter and the processed counter (one `atomic.AddInt64` pair in the
source), having already produced `sleeps` and `requests`. -/
def record (o : Outcome) (sleeps requests : List Nat) : JobRun :=
  { dSuccess := if o = Outcome.success then 1 else 0
    dFailure := if o = Outcome.failure then 1 else 0
    dSkipped := if o = Outcome.skipped then 1 else 0
    dProcessed := 1
    sleeps := sleeps
    requests := requests
    acquired := true
    released := true }

/-- A worker return path that records nothing (an early `return` after the
semaphore was acquired: cancellation observed). The deferred receive still
releases the token. -/
def abandoned (sleeps requests : List Nat) : JobRun :=
  { dSuccess := 0, dFailure := 0, dSkipped := 0, dProcessed := 0
    sleeps := sleeps, requests := requests, acquired := true, released := true }

/-- The retry loop `for i := 0; i < 3; i++` of `deleteArtifact`
(src/main.go lines 110-140) together with the post-loop classification
(lines 142-191).  The remaining iteration indices are carried as a list
(`[0, 1, 2]` initially).  Each iteration: check `ctx.Err()`; create the
request (failure recorded if that errors); call `httpClient.Do`; a non-error
response breaks the loop and is classified; on a transport error the worker
sleeps `2*(i+1)` seconds when `i < 2` and retries, and on the final index the
loop ends with `err != nil`, recorded as failure (lines 142-152). -/
def retryLoop (env : JobEnv) : List Nat → List Nat → List Nat → JobRun
  | [], sleeps, reqs => record Outcome.failure sleeps reqs
  | i :: rest, sleeps, reqs =>
    if env.cancelAt i then abandoned sleeps reqs
    else if env.newReqFails i then record Outcome.failure sleeps reqs
    else
      match env.transport i with
      | AttemptResult.response s => record (classify s) sleeps (reqs ++ [i])
      | AttemptResult.transportError =>
        if i < 2 then retryLoop env rest (sleeps ++ [2 * (i + 1)]) (reqs ++ [i])
        else record Outcome.failure sleeps (reqs ++ [i])

/-- One worker execution of `deleteArtifact` (src/main.go lines 75-192) as a
function of its oracle environment: semaphore admission, the post-acquire
cancellation check, the dry-run short circuit (lines 92-103, which records
skipped and issues no request), then the retry loop over attempts 0, 1, 2. -/
def deleteArtifact (env : JobEnv) : JobRun :=
  if env.admitted then
    if env.cancelAfterAcquire then abandoned [] []
    else if env.dryRun then record Outcome.skipped [] []
    else retryLoop env [0, 1, 2] [] []
  else
    { dSuccess := 0, dFailure := 0, dSkipped := 0, dProcessed := 0
      sleeps := [], requests := [], acquired := false, released := false }

/-- The dispatch loop of `main` (src/main.go lines 336-343): workers are
launched for the enumerated jobs in order, but before each launch the loop
checks `ctx.Err()` and stops launching once cancellation is observed.
`dc k` is that observation at iteration `k`. -/
def launched : List JobEnv → Nat → (Nat → Bool) → List JobEnv
  | [], _, _ => []
  | e :: es, k, dc => if dc k then [] else e :: launched es (k + 1) dc

/-- The drained pool: the effect records of every launched worker after
`wg.Wait()` returns. -/
def poolRuns (envs : List JobEnv) (dc : Nat → Bool) : List JobRun :=
  (launched envs 0 dc).map deleteArtifact

/-- Final value of `successCounter` after the pool drains. -/
def totalSuccesses (runs : List JobRun) : Nat := (runs.map JobRun.dSuccess).sum

/-- Final value of `failureCounter` after the pool drains. -/
def totalFailures (runs : List JobRun) : Nat := (runs.map JobRun.dFailure).sum

/-- Final value of `skippedCounter` after the pool drains. -/
def totalSkipped (runs : List JobRun) : Nat := (runs.map JobRun.dSkipped).sum

/-- Final value of `processedCounter` after the pool drains. -/
def totalProcessed (runs : List JobRun) : Nat := (runs.map JobRun.dProcessed).sum

/-- A run of one job observes no cancellation anywhere: the worker is admitted
(the select takes the semaphore branch) and every `ctx.Err()` check is nil. -/
def Uncancelled (env : JobEnv) : Prop :=
  env.admitted = true ∧ env.cancelAfterAcquire = false ∧ ∀ i, env.cancelAt i = false

/-- Distinguishable validation errors of `validateInputs`
(src/main.go lines 196-220), one constructor per `fmt.Errorf` site in source
order. -/
inductive ValidationError where
  | emptyServer
  | emptyToken
  | nonPositiveProject
  | nonPositiveStartJob
  | endBeforeStart
  | badConcurrency
  | rangeTooLarge
  deriving DecidableEq, Repr

/-- Transcription of `validateInputs` (src/main.go lines 196-220): the checks
run in source order and the first violated one determines the error. -/
def validateInputs (server token : String) (projectID startJob endJob concurrency : Int) :
    Option ValidationError :=
  if server = "" then some ValidationError.emptyServer
  else if token = "" then some ValidationError.emptyToken
  else if projectID ≤ 0 then some ValidationError.nonPositiveProject
  else if startJob ≤ 0 then some ValidationError.nonPositiveStartJob
  else if endJob < startJob then some ValidationError.endBeforeStart
  else if concurrency < 1 ∨ concurrency > 1000 then some ValidationError.badConcurrency
  else if endJob - startJob + 1 > 1000000 then some ValidationError.rangeTooLarge
  else none

/-- Whether `main` (src/main.go lines 235-298) reaches any network request.
The `Run` closure calls `validateInputs` first and exits with status 1 on a
validation error, before the first network call (`projectExists`, line 286);
it proceeds to the network only when validation passes. -/
def mainIssuesNetwork (server token : String)
    (projectID startJob endJob concurrency : Int) : Bool :=
  (validateInputs server token projectID startJob endJob concurrency).isNone

/-- Result of one page fetch in `listJobs` (src/unnamed/part_000 lines
96-118): either a transport error from `httpClient.Do`, or a response with a
status code and — when the body is read — either a JSON decode failure
(`none`) or a decoded list of job ids. -/
inductive PageFetch where
  | transportError
  | resp (status : Nat) (body : Option (List Nat))
  deriving DecidableEq, Repr

/-- The error cases on which `listJobs` returns a non-nil `error`. -/
inductive ListError where
  | cancelled
  | transportError
  | badStatus (code : Nat)
  | decodeError
  deriving DecidableEq, Repr

/-- Oracle environment for one run of `listJobs`: the page fetch results, the
`ctx.Err()` observation at the top of the iteration for each page, and the
configured page limit (`0` or negative means unlimited). -/
structure ListEnv where
  fetch : Nat → PageFetch
  cancelAt : Nat → Bool
  pageLimit : Int

/-- Page size used by `listJobs`: `perPage := 100`
(src/unnamed/part_000 line 84). -/
def perPage : Nat := 100

/-- The pagination loop of `listJobs` (src/unnamed/part_000 lines 88-137),
with an explicit fuel bound for termination (`none` means the fuel ran out
before the loop did; every theorem below supplies enough fuel).  Each
iteration: a cancellation check returning the jobs gathered so far with a
non-nil error; a single page fetch with no per-page retry, where a transport
error, a non-200 status or a decode failure returns `nil` and an error; an
empty page ends the loop; otherwise the page is appended, a short page
(fewer than `perPage` jobs) ends the loop, and after `page++` a positive
page limit that is now exceeded ends the loop. -/
def listJobsLoop (env : ListEnv) : Nat → Nat → List Nat → Option (List Nat × Option ListError)
  | 0, _, _ => none
  | fuel + 1, page, acc =>
    if env.cancelAt page then some (acc, some ListError.cancelled)
    else
      match env.fetch page with
      | PageFetch.transportError => some ([], some ListError.transportError)
      | PageFetch.resp status body =>
        if status ≠ 200 then some ([], some (ListError.badStatus status))
        else
          match body with
          | none => some ([], some ListError.decodeError)
          | some jobs =>
            if jobs.length = 0 then some (acc, none)
            else
              if jobs.length < perPage then some (acc ++ jobs, none)
              else
                if 0 < env.pageLimit ∧ (page : Int) + 1 > env.pageLimit then
                  some (acc ++ jobs, none)
                else listJobsLoop env fuel (page + 1) (acc ++ jobs)

/-- The entry of `listJobs` (src/unnamed/part_000 lines 81-142): the loop
starts at `page := 1` with an empty accumulator. -/
def listJobs (env : ListEnv) (fuel : Nat) : Option (List Nat × Option ListError) :=
  listJobsLoop env fuel 1 []

/-- Whether `main` of the discovery variant proceeds to the deletion phase
for a given `listJobs` result (src/unnamed/part_000 lines 356-361): a non-nil
error makes it exit with status 1 before any deletion. -/
def proceedsToDeletion (r : List Nat × Option ListError) : Bool :=
  r.2.isNone

/-- Phase of one worker with respect to the concurrency semaphore `sem`
(src/main.go lines 78-83, 302): `waiting` before the semaphore send,
`holding` while the token is held outside a network call, `inflight` while
the DELETE round trip is in progress (token still held), `done` after the
deferred receive released the token. -/
inductive WPhase where
  | waiting
  | holding
  | inflight
  | done
  deriving DecidableEq, Repr

/-- A worker in this phase holds one buffered slot of `sem`. -/
def holdsToken : WPhase → Bool
  | WPhase.holding => true
  | WPhase.inflight => true
  | _ => false

/-- A worker in this phase has a DELETE request in flight. -/
def isInflight : WPhase → Bool
  | WPhase.inflight => true
  | _ => false

/-- Number of semaphore slots currently taken: the buffered channel holds one
`struct` per worker between its send and its deferred receive. -/
def heldCount (σ : List WPhase) : Nat := σ.countP holdsToken

/-- Number of simultaneously in-flight DELETE operations. -/
def inflightCount (σ : List WPhase) : Nat := σ.countP isInflight

/-- Interleaving semantics of the worker pool against the buffered channel
`sem := make(chan struct, concurrency)` (src/main.go line 302).  A state
lists the phase of each launched worker; one step changes one worker's phase.
`acquire` is the channel send of src/main.go line 79: it can only fire while
fewer than `cap` slots are taken, because a send on a full buffered channel
blocks.  `startReq` and `endReq` bracket the `httpClient.Do` round trip
(line 132), `release` is the deferred receive (line 83), and `abandon` is a
worker leaving via `ctx.Done()` without ever acquiring (lines 80-81). -/
inductive SemStep (cap : Nat) : List WPhase → List WPhase → Prop
  | acquire (l r : List WPhase) :
      heldCount (l ++ WPhase.waiting :: r) < cap →
      SemStep cap (l ++ WPhase.waiting :: r) (l ++ WPhase.holding :: r)
  | startReq (l r : List WPhase) :
      SemStep cap (l ++ WPhase.holding :: r) (l ++ WPhase.inflight :: r)
  | endReq (l r : List WPhase) :
      SemStep cap (l ++ WPhase.inflight :: r) (l ++ WPhase.holding :: r)
  | release (l r : List WPhase) :
      SemStep cap (l ++ WPhase.holding :: r) (l ++ WPhase.done :: r)
  | abandon (l r : List WPhase) :
      SemStep cap (l ++ WPhase.waiting :: r) (l ++ WPhase.done :: r)

/-- States of an `n`-worker pool reachable from the initial state in which
every worker is waiting to acquire. -/
def Reachable (cap n : Nat) (σ : List WPhase) : Prop :=
  Relation.ReflTransGen (SemStep cap) (List.replicate n WPhase.waiting) σ

/-! Helper lemmas about single worker runs. -/

lemma record_processed (o : Outcome) (sleeps reqs : List Nat) :
    (record o sleeps reqs).dProcessed = 1 := rfl

lemma record_counter_split (o : Outcome) (sleeps reqs : List Nat) :
    (record o sleeps reqs).dProcessed
      = (record o sleeps reqs).dSuccess + (record o sleeps reqs).dFailure
        + (record o sleeps reqs).dSkipped := by
  cases o <;> simp [record]

lemma retryLoop_counter_split (env : JobEnv) :
    ∀ (l sleeps reqs : List Nat),
      (retryLoop env l sleeps reqs).dProcessed
        = (retryLoop env l sleeps reqs).dSuccess
          + (retryLoop env l sleeps reqs).dFailure
          + (retryLoop env l sleeps reqs).dSkipped := by
  intro l
  induction l with
  | nil =>
    intro sleeps reqs
    simpa [retryLoop] using record_counter_split Outcome.failure sleeps reqs
  | cons i rest ih =>
    intro sleeps reqs
    simp only [retryLoop]
    by_cases h1 : env.cancelAt i
    · simp [h1, abandoned]
    · by_cases h2 : env.newReqFails i
      · simpa [h1, h2] using record_counter_split Outcome.failure sleeps reqs
      · cases h3 : env.transport i with
        | transportError =>
          by_cases h4 : i < 2
          · simpa [h1, h2, h3, h4] using ih (sleeps ++ [2 * (i + 1)]) (reqs ++ [i])
          · simpa [h1, h2, h3, h4] using
              record_counter_split Outcome.failure sleeps (reqs ++ [i])
        | response s =>
          simpa [h1, h2, h3] using record_counter_split (classify s) sleeps (reqs ++ [i])

lemma deleteArtifact_counter_split (env : JobEnv) :
    (deleteArtifact env).dProcessed
      = (deleteArtifact env).dSuccess + (deleteArtifact env).dFailure
        + (deleteArtifact env).dSkipped := by
  unfold deleteArtifact
  by_cases h1 : env.admitted
  · by_cases h2 : env.cancelAfterAcquire
    · simp [h1, h2, abandoned]
    · by_cases h3 : env.dryRun
      · simpa [h1, h2, h3] using record_counter_split Outcome.skipped [] []
      · simpa [h1, h2, h3] using retryLoop_counter_split env [0, 1, 2] [] []
  · simp [h1]

lemma retryLoop_processed_nocancel (env : JobEnv)
    (h : ∀ i, env.cancelAt i = false) :
    ∀ (l sleeps reqs : List Nat), (retryLoop env l sleeps reqs).dProcessed = 1 := by
  intro l
  induction l with
  | nil => intro sleeps reqs; simp [retryLoop, record]
  | cons i rest ih =>
    intro sleeps reqs
    simp only [retryLoop, h i]
    by_cases h2 : env.newReqFails i
    · simp [h2, record]
    · cases h3 : env.transport i with
      | transportError =>
        by_cases h4 : i < 2
        · simpa [h2, h3, h4] using ih (sleeps ++ [2 * (i + 1)]) (reqs ++ [i])
        · simp [h2, h3, h4, record]
      | response s => simp [h2, h3, record]

lemma deleteArtifact_processed_uncancelled (env : JobEnv) (h : Uncancelled env) :
    (deleteArtifact env).dProcessed = 1 := by
  obtain ⟨h1, h2, h3⟩ := h
  unfold deleteArtifact
  by_cases hd : env.dryRun
  · simp [h1, h2, hd, record]
  · simpa [h1, h2, hd] using retryLoop_processed_nocancel env h3 [0, 1, 2] [] []

lemma launched_nocancel : ∀ (envs : List JobEnv) (k : Nat),
    launched envs k (fun _ => false) = envs := by
  intro envs
  induction envs with
  | nil => intro k; simp [launched]
  | cons e es ih => intro k; simp [launched, ih]

lemma totals_split (runs : List JobRun)
    (h : ∀ r ∈ runs, r.dProcessed = r.dSuccess + r.dFailure + r.dSkipped) :
    totalProcessed runs = totalSuccesses runs + totalFailures runs + totalSkipped runs := by
  induction runs with
  | nil => simp [totalProcessed, totalSuccesses, totalFailures, totalSkipped]
  | cons r rs ih =>
    have hr := h r (List.mem_cons_self r rs)
    have hrs := ih (fun x hx => h x (List.mem_cons_of_mem r hx))
    simp only [totalProcessed, totalSuccesses, totalFailures, totalSkipped,
      List.map_cons, List.sum_cons] at *
    omega

/-- Claim C1: after the worker pool drains — over every oracle environment for
the workers and every dispatch-loop cancellation pattern — the final counters
satisfy `processed = successes + failures + skipped`; and when no cancellation
is observed anywhere, `processed` equals the number of enumerated jobs. -/
theorem pool_drain_counter_invariant :
    (∀ (envs : List JobEnv) (dc : Nat → Bool),
      totalProcessed (poolRuns envs dc)
        = totalSuccesses (poolRuns envs dc) + totalFailures (poolRuns envs dc)
          + totalSkipped (poolRuns envs dc)) ∧
    (∀ envs : List JobEnv, (∀ env ∈ envs, Uncancelled env) →
      totalProcessed (poolRuns envs (fun _ => false)) = envs.length) := by
  constructor
  · intro envs dc
    apply totals_split
    intro r hr
    rcases List.mem_map.mp hr with ⟨env, _, rfl⟩
    exact deleteArtifact_counter_split env
  · intro envs h
    unfold poolRuns
    rw [launched_nocancel]
    induction envs with
    | nil => simp [totalProcessed]
    | cons e es ih =>
      have he := deleteArtifact_processed_uncancelled e (h e (List.mem_cons_self e es))
      have hes := ih (fun x hx => h x (List.mem_cons_of_mem e hx))
      simp only [totalProcessed, List.map_cons, List.sum_cons, List.length_cons] at *
      omega

/-- Oracle environment used to exercise `pool_drain_counter_invariant` on a
concrete two job pool whose deletions both answer 204. -/
def c1Env : JobEnv :=
  { dryRun := false, admitted := true, cancelAfterAcquire := false
    cancelAt := fun _ => false, newReqFails := fun _ => false
    transport := fun _ => AttemptResult.response 204 }

theorem pool_drain_counter_invariant_witness :
    totalProcessed (poolRuns [c1Env, c1Env] (fun _ => false))
      = totalSuccesses (poolRuns [c1Env, c1Env] (fun _ => false))
        + totalFailures (poolRuns [c1Env, c1Env] (fun _ => false))
        + totalSkipped (poolRuns [c1Env, c1Env] (fun _ => false)) ∧
    totalProcessed (poolRuns [c1Env, c1Env] (fun _ => false)) = 2 := by
  refine ⟨pool_drain_counter_invariant.1 [c1Env, c1Env] (fun _ => false), ?_⟩
  have h : ∀ env ∈ [c1Env, c1Env], Uncancelled env := by
    intro env he
    have hu : Uncancelled c1Env := ⟨rfl, rfl, fun _ => rfl⟩
    rcases List.mem_cons.mp he with h | h
    · rw [h]; exact hu
    · rcases List.mem_cons.mp h with h | h
      · rw [h]; exact hu
      · cases h
  exact pool_drain_counter_invariant.2 [c1Env, c1Env] h

/-! Evaluation lemmas for the retry loop under specific transport behaviour. -/

lemma record_sum_one (o : Outcome) (sleeps reqs : List Nat) :
    (record o sleeps reqs).dSuccess + (record o sleeps reqs).dFailure
      + (record o sleeps reqs).dSkipped = 1 := by
  cases o <;> simp [record]

lemma record_classify_fields (s : Nat) (sleeps reqs : List Nat) :
    (record (classify s) sleeps reqs).dSuccess = (if s = 204 then 1 else 0) ∧
    (record (classify s) sleeps reqs).dSkipped = (if s = 404 then 1 else 0) ∧
    (record (classify s) sleeps reqs).dFailure = (if s ≠ 204 ∧ s ≠ 404 then 1 else 0) := by
  by_cases h1 : s = 204
  · simp [classify, record, h1]
  · by_cases h2 : s = 404 <;> simp [classify, record, h1, h2]

lemma deleteArtifact_clean (env : JobEnv) (ha : env.admitted = true)
    (hc : env.cancelAfterAcquire = false) (hd : env.dryRun = false) :
    deleteArtifact env = retryLoop env [0, 1, 2] [] [] := by
  simp [deleteArtifact, ha, hc, hd]

lemma retryLoop_resp0 (env : JobEnv) (s : Nat) (h0 : env.cancelAt 0 = false)
    (hn0 : env.newReqFails 0 = false) (ht0 : env.transport 0 = AttemptResult.response s) :
    retryLoop env [0, 1, 2] [] [] = record (classify s) [] [0] := by
  simp [retryLoop, h0, hn0, ht0]

lemma retryLoop_err0_resp1 (env : JobEnv) (s : Nat)
    (h0 : env.cancelAt 0 = false) (hn0 : env.newReqFails 0 = false)
    (ht0 : env.transport 0 = AttemptResult.transportError)
    (h1 : env.cancelAt 1 = false) (hn1 : env.newReqFails 1 = false)
    (ht1 : env.transport 1 = AttemptResult.response s) :
    retryLoop env [0, 1, 2] [] [] = record (classify s) [2] [0, 1] := by
  simp [retryLoop, h0, hn0, ht0, h1, hn1, ht1]

lemma retryLoop_err01_resp2 (env : JobEnv) (s : Nat)
    (h0 : env.cancelAt 0 = false) (hn0 : env.newReqFails 0 = false)
    (ht0 : env.transport 0 = AttemptResult.transportError)
    (h1 : env.cancelAt 1 = false) (hn1 : env.newReqFails 1 = false)
    (ht1 : env.transport 1 = AttemptResult.transportError)
    (h2 : env.cancelAt 2 = false) (hn2 : env.newReqFails 2 = false)
    (ht2 : env.transport 2 = AttemptResult.response s) :
    retryLoop env [0, 1, 2] [] [] = record (classify s) [2, 4] [0, 1, 2] := by
  simp [retryLoop, h0, hn0, ht0, h1, hn1, ht1, h2, hn2, ht2]

lemma retryLoop_err012 (env : JobEnv)
    (h0 : env.cancelAt 0 = false) (hn0 : env.newReqFails 0 = false)
    (ht0 : env.transport 0 = AttemptResult.transportError)
    (h1 : env.cancelAt 1 = false) (hn1 : env.newReqFails 1 = false)
    (ht1 : env.transport 1 = AttemptResult.transportError)
    (h2 : env.cancelAt 2 = false) (hn2 : env.newReqFails 2 = false)
    (ht2 : env.transport 2 = AttemptResult.transportError) :
    retryLoop env [0, 1, 2] [] [] = record Outcome.failure [2, 4] [0, 1, 2] := by
  simp [retryLoop, h0, hn0, ht0, h1, hn1, ht1, h2, hn2, ht2]

/-- Claim C2: for a worker that reaches a final HTTP response at attempt `i`
(all earlier attempts were transport errors), the recorded outcome is success
for 204, skipped for 404 and failure for any other status; a worker whose
three transport attempts all error is recorded as failure; in each case
`processed` is incremented and exactly one outcome counter is incremented. -/
theorem delete_outcome_classification (env : JobEnv) (ha : env.admitted = true)
    (hc : env.cancelAfterAcquire = false) (hd : env.dryRun = false)
    (hnc : ∀ i, env.cancelAt i = false) (hnr : ∀ i, env.newReqFails i = false) :
    (∀ i s, i ≤ 2 → (∀ j, j < i → env.transport j = AttemptResult.transportError) →
      env.transport i = AttemptResult.response s →
      (deleteArtifact env).dSuccess = (if s = 204 then 1 else 0) ∧
      (deleteArtifact env).dSkipped = (if s = 404 then 1 else 0) ∧
      (deleteArtifact env).dFailure = (if s ≠ 204 ∧ s ≠ 404 then 1 else 0) ∧
      (deleteArtifact env).dProcessed = 1 ∧
      (deleteArtifact env).dSuccess + (deleteArtifact env).dFailure
        + (deleteArtifact env).dSkipped = 1) ∧
    ((∀ i, i ≤ 2 → env.transport i = AttemptResult.transportError) →
      (deleteArtifact env).dFailure = 1 ∧ (deleteArtifact env).dProcessed = 1 ∧
      (deleteArtifact env).dSuccess = 0 ∧ (deleteArtifact env).dSkipped = 0) := by
  have hclean := deleteArtifact_clean env ha hc hd
  constructor
  · intro i s hi hbefore hresp
    have key : deleteArtifact env = record (classify s) (deleteArtifact env).sleeps
        (deleteArtifact env).requests := by
      interval_cases i
      · rw [hclean, retryLoop_resp0 env s (hnc 0) (hnr 0) hresp]; rfl
      · rw [hclean, retryLoop_err0_resp1 env s (hnc 0) (hnr 0)
          (hbefore 0 (by decide)) (hnc 1) (hnr 1) hresp]; rfl
      · rw [hclean, retryLoop_err01_resp2 env s (hnc 0) (hnr 0)
          (hbefore 0 (by decide)) (hnc 1) (hnr 1) (hbefore 1 (by decide))
          (hnc 2) (hnr 2) hresp]; rfl
    rw [key]
    obtain ⟨e1, e2, e3⟩ := record_classify_fields s (deleteArtifact env).sleeps
      (deleteArtifact env).requests
    exact ⟨e1, e2, e3, record_processed _ _ _, record_sum_one _ _ _⟩
  · intro hall
    rw [hclean, retryLoop_err012 env (hnc 0) (hnr 0) (hall 0 (by decide))
      (hnc 1) (hnr 1) (hall 1 (by decide)) (hnc 2) (hnr 2) (hall 2 (by decide))]
    simp [record]

/-- Oracle environment exercising `delete_outcome_classification`: the first
DELETE attempt answers 404. -/
def c2Env : JobEnv :=
  { dryRun := false, admitted := true, cancelAfterAcquire := false
    cancelAt := fun _ => false, newReqFails := fun _ => false
    transport := fun _ => AttemptResult.response 404 }

theorem delete_outcome_classification_witness :
    (deleteArtifact c2Env).dSkipped = 1 ∧ (deleteArtifact c2Env).dProcessed = 1 ∧
    (deleteArtifact c2Env).dSuccess = 0 := by
  have h := (delete_outcome_classification c2Env rfl rfl rfl (fun _ => rfl)
      (fun _ => rfl)).1 0 404 (by decide)
      (fun j hj => absurd hj (Nat.not_lt_zero j)) rfl
  exact ⟨by simpa using h.2.1, h.2.2.2.1, by simpa using h.1⟩

/-- Oracle environment refuting claim C3: the first DELETE attempt answers
with status 500. -/
def c3Env : JobEnv :=
  { dryRun := false, admitted := true, cancelAfterAcquire := false
    cancelAt := fun _ => false, newReqFails := fun _ => false
    transport := fun _ => AttemptResult.response 500 }

/-- Counterexample to claim C3: a job whose first delete attempt returns a
5xx response is not retried.  Exactly one DELETE request is issued (attempt
0 only) and the job is recorded as a failure from that first response,
contrary to the claim that a 5xx response is attempted again. -/
theorem http5xx_not_retried_counterexample :
    (deleteArtifact c3Env).requests = [0] ∧ (deleteArtifact c3Env).dFailure = 1 ∧
    (deleteArtifact c3Env).dProcessed = 1 := by
  decide

/-- Claim C3 as amended: the delete operation is retried, up to 3 attempts in
total, only on transport (network) errors; any HTTP response — a 5xx status
included — ends the retry loop at once and the job is classified from that
first response. -/
theorem transport_retry_policy (env : JobEnv) (ha : env.admitted = true)
    (hc : env.cancelAfterAcquire = false) (hd : env.dryRun = false)
    (hnc : ∀ i, env.cancelAt i = false) (hnr : ∀ i, env.newReqFails i = false) :
    ((∀ i, i ≤ 2 → env.transport i = AttemptResult.transportError) →
      (deleteArtifact env).requests = [0, 1, 2] ∧
      (deleteArtifact env).dFailure = 1 ∧ (deleteArtifact env).dProcessed = 1) ∧
    (∀ s, env.transport 0 = AttemptResult.response s →
      (deleteArtifact env).requests = [0] ∧
      deleteArtifact env = record (classify s) [] [0]) := by
  have hclean := deleteArtifact_clean env ha hc hd
  constructor
  · intro hall
    rw [hclean, retryLoop_err012 env (hnc 0) (hnr 0) (hall 0 (by decide))
      (hnc 1) (hnr 1) (hall 1 (by decide)) (hnc 2) (hnr 2) (hall 2 (by decide))]
    simp [record]
  · intro s hresp
    rw [hclean, retryLoop_resp0 env s (hnc 0) (hnr 0) hresp]
    exact ⟨rfl, rfl⟩

/-- Oracle environment exercising `transport_retry_policy`: every transport
attempt errors. -/
def c3wEnv : JobEnv :=
  { dryRun := false, admitted := true, cancelAfterAcquire := false
    cancelAt := fun _ => false, newReqFails := fun _ => false
    transport := fun _ => AttemptResult.transportError }

theorem transport_retry_policy_witness :
    (deleteArtifact c3wEnv).requests = [0, 1, 2] ∧
    (deleteArtifact c3wEnv).dFailure = 1 ∧ (deleteArtifact c3wEnv).dProcessed = 1 := by
  exact (transport_retry_policy c3wEnv rfl rfl rfl (fun _ => rfl) (fun _ => rfl)).1
    (fun i _ => rfl)

lemma retryLoop_start_shape (env : JobEnv) :
    ((retryLoop env [0, 1, 2] [] []).sleeps = [] ∨
      (retryLoop env [0, 1, 2] [] []).sleeps = [2] ∨
      (retryLoop env [0, 1, 2] [] []).sleeps = [2, 4]) ∧
    (retryLoop env [0, 1, 2] [] []).requests.length ≤ 3 := by
  by_cases h0 : env.cancelAt 0
  · simp [retryLoop, h0, abandoned]
  · by_cases hn0 : env.newReqFails 0
    · simp [retryLoop, h0, hn0, record]
    · cases ht0 : env.transport 0 with
      | response s => simp [retryLoop, h0, hn0, ht0, record]
      | transportError =>
        by_cases h1 : env.cancelAt 1
        · simp [retryLoop, h0, hn0, ht0, h1, abandoned]
        · by_cases hn1 : env.newReqFails 1
          · simp [retryLoop, h0, hn0, ht0, h1, hn1, record]
          · cases ht1 : env.transport 1 with
            | response s => simp [retryLoop, h0, hn0, ht0, h1, hn1, ht1, record]
            | transportError =>
              by_cases h2 : env.cancelAt 2
              · simp [retryLoop, h0, hn0, ht0, h1, hn1, ht1, h2, abandoned]
              · by_cases hn2 : env.newReqFails 2
                · simp [retryLoop, h0, hn0, ht0, h1, hn1, ht1, h2, hn2, record]
                · cases ht2 : env.transport 2 with
                  | response s =>
                    simp [retryLoop, h0, hn0, ht0, h1, hn1, ht1, h2, hn2, ht2, record]
                  | transportError =>
                    simp [retryLoop, h0, hn0, ht0, h1, hn1, ht1, h2, hn2, ht2, record]

lemma deleteArtifact_shape (env : JobEnv) :
    ((deleteArtifact env).sleeps = [] ∨ (deleteArtifact env).sleeps = [2] ∨
      (deleteArtifact env).sleeps = [2, 4]) ∧
    (deleteArtifact env).requests.length ≤ 3 := by
  unfold deleteArtifact
  by_cases h1 : env.admitted
  · by_cases h2 : env.cancelAfterAcquire
    · simp [h1, h2, abandoned]
    · by_cases h3 : env.dryRun
      · simp [h1, h2, h3, record]
      · simpa [h1, h2, h3] using retryLoop_start_shape env
  · simp [h1]

/-- Claim C4: every worker performs at most 3 delete attempts and its backoff
sleeps are an initial segment of the schedule 2s, 4s (so a sleep of
`2*(i+1)` seconds follows the transport error of attempt `i` only for
`i < 2`, never after the final attempt); and a worker whose transport calls
error exactly twice and then receive 204 on the third attempt is recorded as
success with exactly the two sleeps 2s and 4s and exactly three issued
requests. -/
theorem retry_backoff_schedule :
    (∀ env : JobEnv,
      ((deleteArtifact env).sleeps = [] ∨ (deleteArtifact env).sleeps = [2] ∨
        (deleteArtifact env).sleeps = [2, 4]) ∧
      (deleteArtifact env).requests.length ≤ 3) ∧
    (∀ env : JobEnv, env.admitted = true → env.cancelAfterAcquire = false →
      env.dryRun = false → (∀ i, env.cancelAt i = false) →
      (∀ i, env.newReqFails i = false) →
      env.transport 0 = AttemptResult.transportError →
      env.transport 1 = AttemptResult.transportError →
      env.transport 2 = AttemptResult.response 204 →
      deleteArtifact env = record Outcome.success [2, 4] [0, 1, 2]) := by
  constructor
  · exact deleteArtifact_shape
  · intro env ha hc hd hnc hnr ht0 ht1 ht2
    rw [deleteArtifact_clean env ha hc hd,
      retryLoop_err01_resp2 env 204 (hnc 0) (hnr 0) ht0 (hnc 1) (hnr 1) ht1
        (hnc 2) (hnr 2) ht2]
    rfl

/-- Oracle environment exercising `retry_backoff_schedule`: the first two
transport calls error, the third answers 204. -/
def c4Env : JobEnv :=
  { dryRun := false, admitted := true, cancelAfterAcquire := false
    cancelAt := fun _ => false, newReqFails := fun _ => false
    transport := fun i => if i < 2 then AttemptResult.transportError
      else AttemptResult.response 204 }

theorem retry_backoff_schedule_witness :
    deleteArtifact c4Env = record Outcome.success [2, 4] [0, 1, 2] ∧
    (deleteArtifact c4Env).requests.length ≤ 3 := by
  refine ⟨retry_backoff_schedule.2 c4Env rfl rfl rfl (fun _ => rfl) (fun _ => rfl)
    rfl rfl rfl, (retry_backoff_schedule.1 c4Env).2⟩

/-- Claim C5: in dry-run mode no DELETE request is ever issued on any path,
and every job that is processed (admitted without observed cancellation) is
recorded as skipped with `processed` incremented and the other counters
untouched. -/
theorem dryrun_no_network (env : JobEnv) (hd : env.dryRun = true) :
    (deleteArtifact env).requests = [] ∧
    (env.admitted = true → env.cancelAfterAcquire = false →
      (deleteArtifact env).dSkipped = 1 ∧ (deleteArtifact env).dProcessed = 1 ∧
      (deleteArtifact env).dSuccess = 0 ∧ (deleteArtifact env).dFailure = 0) := by
  unfold deleteArtifact
  by_cases h1 : env.admitted
  · by_cases h2 : env.cancelAfterAcquire
    · simp [h1, h2, hd, abandoned]
    · simp [h1, h2, hd, record]
  · simp [h1]

/-- Oracle environment exercising `dryrun_no_network`: dry-run on an admitted
uncancelled worker. -/
def c5Env : JobEnv :=
  { dryRun := true, admitted := true, cancelAfterAcquire := false
    cancelAt := fun _ => false, newReqFails := fun _ => false
    transport := fun _ => AttemptResult.response 204 }

theorem dryrun_no_network_witness :
    (deleteArtifact c5Env).requests = [] ∧ (deleteArtifact c5Env).dSkipped = 1 ∧
    (deleteArtifact c5Env).dProcessed = 1 := by
  have h := dryrun_no_network c5Env rfl
  exact ⟨h.1, (h.2 rfl rfl).1, (h.2 rfl rfl).2.1⟩

lemma retryLoop_token (env : JobEnv) :
    ∀ (l sleeps reqs : List Nat),
      (retryLoop env l sleeps reqs).acquired = true ∧
      (retryLoop env l sleeps reqs).released = true := by
  intro l
  induction l with
  | nil => intro sleeps reqs; simp [retryLoop, record]
  | cons i rest ih =>
    intro sleeps reqs
    simp only [retryLoop]
    by_cases h1 : env.cancelAt i
    · simp [h1, abandoned]
    · by_cases h2 : env.newReqFails i
      · simp [h1, h2, record]
      · cases h3 : env.transport i with
        | transportError =>
          by_cases h4 : i < 2
          · simpa [h1, h2, h3, h4] using ih (sleeps ++ [2 * (i + 1)]) (reqs ++ [i])
          · simp [h1, h2, h3, h4, record]
        | response s => simp [h1, h2, h3, record]

lemma retryLoop_one_or_cancel (env : JobEnv) :
    ∀ (l sleeps reqs : List Nat),
      (retryLoop env l sleeps reqs).dProcessed = 1 ∨
      ((retryLoop env l sleeps reqs).dProcessed = 0 ∧ ∃ i, env.cancelAt i = true) := by
  intro l
  induction l with
  | nil => intro sleeps reqs; left; rfl
  | cons i rest ih =>
    intro sleeps reqs
    simp only [retryLoop]
    by_cases h1 : env.cancelAt i
    · right
      refine ⟨by simp [h1, abandoned], i, ?_⟩
      simpa using h1
    · by_cases h2 : env.newReqFails i
      · left; simp [h1, h2, record]
      · cases h3 : env.transport i with
        | transportError =>
          by_cases h4 : i < 2
          · simpa [h1, h2, h3, h4] using ih (sleeps ++ [2 * (i + 1)]) (reqs ++ [i])
          · left; simp [h1, h2, h3, h4, record]
        | response s => left; simp [h1, h2, h3, record]

/-- Oracle environment refuting claim C7: the worker is admitted (acquires
the token) and then observes cancellation. -/
def c7Env : JobEnv :=
  { dryRun := false, admitted := true, cancelAfterAcquire := true
    cancelAt := fun _ => false, newReqFails := fun _ => false
    transport := fun _ => AttemptResult.response 204 }

/-- Counterexample to claim C7: a worker that acquires the concurrency token
and then sees cancellation returns releasing the token but recording no
outcome at all — `processed` and the three outcome counters all stay at 0,
contrary to the claim that an admitted worker records exactly one outcome
even when cancellation fires after admission. -/
theorem admitted_cancel_no_outcome_counterexample :
    (deleteArtifact c7Env).acquired = true ∧ (deleteArtifact c7Env).released = true ∧
    (deleteArtifact c7Env).dProcessed = 0 ∧ (deleteArtifact c7Env).dSuccess = 0 ∧
    (deleteArtifact c7Env).dFailure = 0 ∧ (deleteArtifact c7Env).dSkipped = 0 := by
  decide

/-- Claim C7 as amended: every admitted worker releases the token on every
exit path, and either records exactly one terminal outcome (one outcome
counter and `processed` both incremented once), or records nothing — the
latter only possible when a cancellation check fired after admission. -/
theorem admitted_worker_outcome (env : JobEnv) (ha : env.admitted = true) :
    (deleteArtifact env).acquired = true ∧ (deleteArtifact env).released = true ∧
    (((deleteArtifact env).dProcessed = 1 ∧
        (deleteArtifact env).dSuccess + (deleteArtifact env).dFailure
          + (deleteArtifact env).dSkipped = 1) ∨
      ((deleteArtifact env).dProcessed = 0 ∧
        (deleteArtifact env).dSuccess + (deleteArtifact env).dFailure
          + (deleteArtifact env).dSkipped = 0 ∧
        (env.cancelAfterAcquire = true ∨ ∃ i, env.cancelAt i = true))) := by
  have hsplit := deleteArtifact_counter_split env
  unfold deleteArtifact at *
  by_cases h2 : env.cancelAfterAcquire
  · refine ⟨by simp [ha, h2, abandoned], by simp [ha, h2, abandoned], Or.inr ?_⟩
    refine ⟨by simp [ha, h2, abandoned], ?_, Or.inl h2⟩
    simp [ha, h2, abandoned]
  · by_cases h3 : env.dryRun
    · refine ⟨by simp [ha, h2, h3, record], by simp [ha, h2, h3, record], Or.inl ?_⟩
      constructor
      · simp [ha, h2, h3, record]
      · simp [ha, h2, h3, record]
    · have htok := retryLoop_token env [0, 1, 2] [] []
      have hone := retryLoop_one_or_cancel env [0, 1, 2] [] []
      simp only [ha, h2, h3, if_true, Bool.false_eq_true, if_false] at hsplit ⊢
      refine ⟨htok.1, htok.2, ?_⟩
      rcases hone with h | ⟨h, i, hi⟩
      · exact Or.inl ⟨h, by omega⟩
      · exact Or.inr ⟨h, by omega, Or.inr ⟨i, hi⟩⟩

/-- Oracle environment exercising `admitted_worker_outcome`: an admitted
worker whose delete succeeds. -/
def c7wEnv : JobEnv :=
  { dryRun := false, admitted := true, cancelAfterAcquire := false
    cancelAt := fun _ => false, newReqFails := fun _ => false
    transport := fun _ => AttemptResult.response 204 }

theorem admitted_worker_outcome_witness :
    (deleteArtifact c7wEnv).acquired = true ∧
    (deleteArtifact c7wEnv).released = true := by
  have h := admitted_worker_outcome c7wEnv rfl
  exact ⟨h.1, h.2.1⟩

/-! Validation of the configuration inputs. -/

lemma validateInputs_none_iff (server token : String)
    (projectID startJob endJob concurrency : Int) :
    validateInputs server token projectID startJob endJob concurrency = none ↔
      (server ≠ "" ∧ token ≠ "" ∧ 0 < projectID ∧ 0 < startJob ∧
        startJob ≤ endJob ∧ 1 ≤ concurrency ∧ concurrency ≤ 1000 ∧
        endJob - startJob + 1 ≤ 1000000) := by
  unfold validateInputs
  split_ifs with h1 h2 h3 h4 h5 h6 h7 <;> simp_all <;> omega

/-- Counterexample to claim C6: the claim's success conditions (non-empty
server, non-empty token, positive project id, concurrency within 1..1000,
range-mode end at least start) are all met by the two tuples below, yet
validation fails on both — the code additionally requires a positive start
job id and a range of at most 1,000,000 jobs. -/
theorem validate_inputs_counterexample :
    ("gitlab.example.com" ≠ "" ∧ "token123" ≠ "" ∧ (0 : Int) < 1 ∧
      (1 : Int) ≤ 5 ∧ (5 : Int) ≤ 1000 ∧ (1 : Int) ≤ 2000000 ∧ (0 : Int) ≤ 5) ∧
    validateInputs "gitlab.example.com" "token123" 1 1 2000000 5
      = some ValidationError.rangeTooLarge ∧
    validateInputs "gitlab.example.com" "token123" 1 0 5 5
      = some ValidationError.nonPositiveStartJob := by
  decide

/-- Claim C6 as amended: validation succeeds exactly when the server and
token are non-empty, the project id and start job id are positive, the end
job is at least the start job, the concurrency is within 1..1000 and the
range holds at most 1,000,000 jobs; each violated domain yields its own
distinguishable error, the checks being applied in source order. -/
theorem validate_inputs_characterization (server token : String)
    (projectID startJob endJob concurrency : Int) :
    (validateInputs server token projectID startJob endJob concurrency = none ↔
      (server ≠ "" ∧ token ≠ "" ∧ 0 < projectID ∧ 0 < startJob ∧
        startJob ≤ endJob ∧ 1 ≤ concurrency ∧ concurrency ≤ 1000 ∧
        endJob - startJob + 1 ≤ 1000000)) ∧
    (server = "" →
      validateInputs server token projectID startJob endJob concurrency
        = some ValidationError.emptyServer) ∧
    (server ≠ "" → token = "" →
      validateInputs server token projectID startJob endJob concurrency
        = some ValidationError.emptyToken) ∧
    (server ≠ "" → token ≠ "" → projectID ≤ 0 →
      validateInputs server token projectID startJob endJob concurrency
        = some ValidationError.nonPositiveProject) ∧
    (server ≠ "" → token ≠ "" → 0 < projectID → startJob ≤ 0 →
      validateInputs server token projectID startJob endJob concurrency
        = some ValidationError.nonPositiveStartJob) ∧
    (server ≠ "" → token ≠ "" → 0 < projectID → 0 < startJob →
      endJob < startJob →
      validateInputs server token projectID startJob endJob concurrency
        = some ValidationError.endBeforeStart) ∧
    (server ≠ "" → token ≠ "" → 0 < projectID → 0 < startJob →
      startJob ≤ endJob → (concurrency < 1 ∨ concurrency > 1000) →
      validateInputs server token projectID startJob endJob concurrency
        = some ValidationError.badConcurrency) ∧
    (server ≠ "" → token ≠ "" → 0 < projectID → 0 < startJob →
      startJob ≤ endJob → 1 ≤ concurrency → concurrency ≤ 1000 →
      endJob - startJob + 1 > 1000000 →
      validateInputs server token projectID startJob endJob concurrency
        = some ValidationError.rangeTooLarge) := by
  refine ⟨validateInputs_none_iff server token projectID startJob endJob concurrency,
    ?_, ?_, ?_, ?_, ?_, ?_, ?_⟩
  · intro h1
    simp [validateInputs, h1]
  · intro h1 h2
    simp [validateInputs, h1, h2]
  · intro h1 h2 h3
    simp [validateInputs, h1, h2, h3]
  · intro h1 h2 h3 h4
    have n3 : ¬ projectID ≤ 0 := by omega
    simp [validateInputs, h1, h2, n3, h4]
  · intro h1 h2 h3 h4 h5
    have n3 : ¬ projectID ≤ 0 := by omega
    have n4 : ¬ startJob ≤ 0 := by omega
    simp [validateInputs, h1, h2, n3, n4, h5]
  · intro h1 h2 h3 h4 h5 h6
    have n3 : ¬ projectID ≤ 0 := by omega
    have n4 : ¬ startJob ≤ 0 := by omega
    have n5 : ¬ endJob < startJob := by omega
    simp [validateInputs, h1, h2, n3, n4, n5, h6]
  · intro h1 h2 h3 h4 h5 h6 h7 h8
    have n3 : ¬ projectID ≤ 0 := by omega
    have n4 : ¬ startJob ≤ 0 := by omega
    have n5 : ¬ endJob < startJob := by omega
    have n6 : ¬ (concurrency < 1 ∨ concurrency > 1000) := by omega
    simp [validateInputs, h1, h2, n3, n4, n5, n6, h8]

theorem validate_inputs_characterization_witness :
    validateInputs "gitlab.example.com" "token123" 1 1 120 100 = none ∧
    validateInputs "" "token123" 1 1 120 100 = some ValidationError.emptyServer := by
  constructor
  · exact (validate_inputs_characterization "gitlab.example.com" "token123"
      1 1 120 100).1.mpr (by decide)
  · exact (validate_inputs_characterization "" "token123" 1 1 120 100).2.1 rfl

/-- Claim C10: even when every domain stated by the specification is
satisfied, a range of more than 1,000,000 jobs is rejected by
`validateInputs` with its own distinguishable error, and `main` then exits
before issuing any network request. -/
theorem range_size_guard (server token : String)
    (projectID startJob endJob concurrency : Int)
    (hs : server ≠ "") (ht : token ≠ "") (hp : 0 < projectID)
    (hsj : 0 < startJob) (hse : startJob ≤ endJob)
    (hc1 : 1 ≤ concurrency) (hc2 : concurrency ≤ 1000)
    (hr : endJob - startJob + 1 > 1000000) :
    validateInputs server token projectID startJob endJob concurrency
      = some ValidationError.rangeTooLarge ∧
    mainIssuesNetwork server token projectID startJob endJob concurrency = false := by
  have n3 : ¬ projectID ≤ 0 := by omega
  have n4 : ¬ startJob ≤ 0 := by omega
  have n5 : ¬ endJob < startJob := by omega
  have n6 : ¬ (concurrency < 1 ∨ concurrency > 1000) := by omega
  have hv : validateInputs server token projectID startJob endJob concurrency
      = some ValidationError.rangeTooLarge := by
    simp [validateInputs, hs, ht, n3, n4, n5, n6, hr]
  exact ⟨hv, by simp [mainIssuesNetwork, hv]⟩

/-! Discovery-mode pagination. -/

lemma listJobsLoop_full_pages (env : ListEnv) (pages : Nat → List Nat) :
    ∀ (n page : Nat) (acc : List Nat) (fuel : Nat),
      (∀ p, page ≤ p → p < page + n →
        env.fetch p = PageFetch.resp 200 (some (pages p)) ∧ (pages p).length = 100) →
      (∀ p, page ≤ p → p < page + n → env.cancelAt p = false) →
      (∀ p, page ≤ p → p < page + n →
        ¬(0 < env.pageLimit ∧ (p : Int) + 1 > env.pageLimit)) →
      listJobsLoop env (n + fuel) page acc
        = listJobsLoop env fuel (page + n) (acc ++ (List.range' page n).flatMap pages) := by
  intro n
  induction n with
  | zero =>
    intro page acc fuel _ _ _
    simp [List.range']
  | succ m ih =>
    intro page acc fuel hfull hnc hlim
    have hp := hfull page (le_refl page) (by omega)
    have hc := hnc page (le_refl page) (by omega)
    have hl := hlim page (le_refl page) (by omega)
    have step : listJobsLoop env (m + 1 + fuel) page acc
        = listJobsLoop env (m + fuel) (page + 1) (acc ++ pages page) := by
      rw [show m + 1 + fuel = (m + fuel) + 1 by omega]
      simp only [listJobsLoop, hc, hp.1]
      simp [perPage, hp.2, hl]
    rw [step, ih (page + 1) (acc ++ pages page) fuel
      (fun p h1 h2 => hfull p (by omega) (by omega))
      (fun p h1 h2 => hnc p (by omega) (by omega))
      (fun p h1 h2 => hlim p (by omega) (by omega)),
      show page + 1 + m = page + (m + 1) by omega]
    congr 1
    rw [List.range'_succ page m 1, List.flatMap_cons, List.append_assoc]

/-- Claim C8: discovery requests pages of fixed size 100 starting at page 1
and accumulates all returned job records.  Given `k - 1` full leading pages
with no cancellation and an open page limit up to page `k`: it stops exactly
at the first page returning fewer than 100 jobs, with the concatenation of
every returned record and no error; with all pages full and the page limit
equal to `k` it stops exactly after fetching page `k`, again accumulating
everything; and a failing fetch of page `k` — transport error, non-200
status, or decode failure — makes discovery return an error, upon which main
exits before any deletion over the partial list. -/
theorem discovery_pagination (env : ListEnv) (pages : Nat → List Nat) (k : Nat)
    (hk : 1 ≤ k)
    (hfull : ∀ p, 1 ≤ p → p < k →
      env.fetch p = PageFetch.resp 200 (some (pages p)) ∧ (pages p).length = 100)
    (hnc : ∀ p, 1 ≤ p → p ≤ k → env.cancelAt p = false)
    (hlim : ∀ p, 1 ≤ p → p < k →
      ¬(0 < env.pageLimit ∧ (p : Int) + 1 > env.pageLimit)) :
    (∀ jsk, env.fetch k = PageFetch.resp 200 (some jsk) → jsk.length < 100 →
      listJobs env k = some ((List.range' 1 (k - 1)).flatMap pages ++ jsk, none)) ∧
    (env.fetch k = PageFetch.resp 200 (some (pages k)) → (pages k).length = 100 →
      env.pageLimit = (k : Int) →
      listJobs env k = some ((List.range' 1 k).flatMap pages, none)) ∧
    (env.fetch k = PageFetch.transportError →
      listJobs env k = some ([], some ListError.transportError) ∧
      proceedsToDeletion ([], some ListError.transportError) = false) ∧
    (∀ s body, env.fetch k = PageFetch.resp s body → s ≠ 200 →
      listJobs env k = some ([], some (ListError.badStatus s)) ∧
      proceedsToDeletion ([], some (ListError.badStatus s)) = false) ∧
    (env.fetch k = PageFetch.resp 200 none →
      listJobs env k = some ([], some ListError.decodeError) ∧
      proceedsToDeletion ([], some ListError.decodeError) = false) := by
  have hreach : listJobsLoop env k 1 []
      = listJobsLoop env 1 k ((List.range' 1 (k - 1)).flatMap pages) := by
    have h := listJobsLoop_full_pages env pages (k - 1) 1 [] 1
      (fun p h1 h2 => hfull p h1 (by omega))
      (fun p h1 h2 => hnc p h1 (by omega))
      (fun p h1 h2 => hlim p h1 (by omega))
    rw [show (k - 1) + 1 = k by omega] at h
    rw [show (1 : Nat) + (k - 1) = k by omega] at h
    simpa using h
  have hck : env.cancelAt k = false := hnc k hk (le_refl k)
  refine ⟨?_, ?_, ?_, ?_, ?_⟩
  · intro jsk hfk hshort
    unfold listJobs
    rw [hreach]
    simp only [listJobsLoop, hck, hfk]
    by_cases h0 : jsk.length = 0
    · have : jsk = [] := List.length_eq_zero.mp h0
      simp [this, perPage]
    · simp [perPage, h0, hshort]
  · intro hfk hlen hpl
    unfold listJobs
    rw [hreach]
    simp only [listJobsLoop, hck, hfk]
    have hstop : 0 < env.pageLimit ∧ (k : Int) + 1 > env.pageLimit := by
      constructor
      · rw [hpl]; exact_mod_cast hk
      · rw [hpl]; omega
    have hisplit : (List.range' 1 k).flatMap pages
        = (List.range' 1 (k - 1)).flatMap pages ++ pages k := by
      conv_lhs => rw [show k = (k - 1) + 1 by omega]
      rw [List.range'_concat 1 (k - 1), List.flatMap_append]
      simp only [List.flatMap_cons, List.flatMap_nil, List.append_nil, one_mul]
      rw [show 1 + (k - 1) = k by omega]
    simp [perPage, hstop, hisplit]
  · intro hfk
    unfold listJobs
    rw [hreach]
    simp [listJobsLoop, hck, hfk, proceedsToDeletion]
  · intro s body hfk hs
    unfold listJobs
    rw [hreach]
    simp [listJobsLoop, hck, hfk, hs, proceedsToDeletion]
  · intro hfk
    unfold listJobs
    rw [hreach]
    simp [listJobsLoop, hck, hfk, proceedsToDeletion]

/-- Environment exercising `discovery_pagination`: page 1 returns 100
records, page 2 returns a single record, no page limit. -/
def c8Env : ListEnv :=
  { fetch := fun p => if p = 1 then PageFetch.resp 200 (some (List.replicate 100 1))
      else PageFetch.resp 200 (some [7])
    cancelAt := fun _ => false
    pageLimit := 0 }

theorem discovery_pagination_witness :
    listJobs c8Env 2 = some (List.replicate 100 1 ++ [7], none) := by
  have h := (discovery_pagination c8Env (fun _ => List.replicate 100 1) 2
      (by decide)
      (by intro p h1 h2
          have : p = 1 := by omega
          subst this
          exact ⟨rfl, by simp⟩)
      (fun p _ _ => rfl)
      (by intro p h1 h2
          simp [c8Env])).1 [7] rfl (by decide)
  simpa using h

theorem range_size_guard_witness :
    validateInputs "gitlab.example.com" "token123" 1 1 2500000 5
      = some ValidationError.rangeTooLarge ∧
    mainIssuesNetwork "gitlab.example.com" "token123" 1 1 2500000 5 = false := by
  exact range_size_guard "gitlab.example.com" "token123" 1 1 2500000 5
    (by decide) (by decide) (by decide) (by decide) (by decide) (by decide)
    (by decide) (by decide)
/-! Concurrency bound of the worker pool. -/

lemma heldCount_init (n : Nat) : heldCount (List.replicate n WPhase.waiting) = 0 := by
  induction n with
  | zero => rfl
  | succ m ih =>
    simp only [List.replicate_succ, heldCount, List.countP_cons] at *
    simp [holdsToken, ih]

lemma inflight_le_held (σ : List WPhase) : inflightCount σ ≤ heldCount σ := by
  induction σ with
  | nil => simp [inflightCount, heldCount]
  | cons w rest ih =>
    simp only [inflightCount, heldCount, List.countP_cons] at *
    cases w <;> simp [isInflight, holdsToken] <;> omega

lemma semStep_held_le (cap : Nat) (σ σ' : List WPhase) (h : SemStep cap σ σ')
    (hb : heldCount σ ≤ cap) : heldCount σ' ≤ cap := by
  cases h with
  | acquire l r hlt =>
    simp [heldCount, List.countP_append, List.countP_cons, holdsToken] at hlt ⊢
    omega
  | startReq l r =>
    simp [heldCount, List.countP_append, List.countP_cons, holdsToken] at hb ⊢
    omega
  | endReq l r =>
    simp [heldCount, List.countP_append, List.countP_cons, holdsToken] at hb ⊢
    omega
  | release l r =>
    simp [heldCount, List.countP_append, List.countP_cons, holdsToken] at hb ⊢
    omega
  | abandon l r =>
    simp [heldCount, List.countP_append, List.countP_cons, holdsToken] at hb ⊢
    omega

lemma reachable_held_le (cap n : Nat) (σ : List WPhase) (h : Reachable cap n σ) :
    heldCount σ ≤ cap := by
  unfold Reachable at h
  induction h with
  | refl => simp [heldCount_init]
  | tail h1 h2 ih => exact semStep_held_le cap _ _ h2 ih

/-- Claim C9: for every interleaving of the launched workers against the
buffered-channel semaphore of capacity `cap` — every state reachable from
the all-waiting initial state — the number of simultaneously in-flight
DELETE operations never exceeds `cap`, because every in-flight worker holds
one of the at most `cap` taken slots. -/
theorem concurrency_bound (cap n : Nat) (σ : List WPhase) (h : Reachable cap n σ) :
    inflightCount σ ≤ cap :=
  le_trans (inflight_le_held σ) (reachable_held_le cap n σ h)

theorem concurrency_bound_witness :
    inflightCount [WPhase.inflight, WPhase.holding, WPhase.waiting] ≤ 2 := by
  have s1 : SemStep 2 (List.replicate 3 WPhase.waiting)
      [WPhase.holding, WPhase.waiting, WPhase.waiting] :=
    SemStep.acquire [] [WPhase.waiting, WPhase.waiting] (by decide)
  have s2 : SemStep 2 [WPhase.holding, WPhase.waiting, WPhase.waiting]
      [WPhase.holding, WPhase.holding, WPhase.waiting] :=
    SemStep.acquire [WPhase.holding] [WPhase.waiting] (by decide)
  have s3 : SemStep 2 [WPhase.holding, WPhase.holding, WPhase.waiting]
      [WPhase.inflight, WPhase.holding, WPhase.waiting] :=
    SemStep.startReq [] [WPhase.holding, WPhase.waiting]
  have hreach : Reachable 2 3 [WPhase.inflight, WPhase.holding, WPhase.waiting] :=
    Relation.ReflTransGen.tail
      (Relation.ReflTransGen.tail
        (Relation.ReflTransGen.tail Relation.ReflTransGen.refl s1) s2) s3
  exact concurrency_bound 2 3 _ hreach
